import Mathlib

/-!
Verification development for the libSBML document-engine core.

The definitions below are shallow embeddings of the C++ sources:
  * `src/src/sbml/SBMLDocument.cpp` — consistency checking, level/version
    compatibility checking, conversion dispatch, unknown-package bookkeeping,
    and element lookup by id / metaId;
  * `src/unnamed/part_002` (`UniqueSpatialIds.cpp`) — the duplicate-identifier
    validation constraint;
  * the serializer scenarios exercised by `src/unnamed/part_001`
    (`TestSBMLFormatter.cpp`).

Machine state that the C++ mutates in place (the error log, the unknown
package side tables, the constraint scratch map) is threaded explicitly.
External collaborators that are not part of the sources (the per-revision
severity table, the converter registry, plugin searches) are passed as
parameters, or are modelled from the specification where so noted.
-/

namespace LibSBML

/-- Severity classes of an error record (LIBSBML_SEV_INFO, LIBSBML_SEV_WARNING,
LIBSBML_SEV_ERROR, LIBSBML_SEV_FATAL). -/
inductive Severity where
  | info
  | warning
  | error
  | fatal
deriving DecidableEq, Repr

/-- Severity-override modes of an error log (XMLErrorSeverityOverride_t):
LIBSBML_OVERRIDE_DISABLED, LIBSBML_OVERRIDE_DONT_LOG, LIBSBML_OVERRIDE_WARNING,
LIBSBML_OVERRIDE_ERROR. -/
inductive SeverityOverride where
  | disabled
  | dontLog
  | asWarning
  | asError
deriving DecidableEq, Repr

/-- One record of the document error log: a numeric error code together with
the severity it was logged at. -/
structure LogEntry where
  errorId : Nat
  severity : Severity
deriving DecidableEq, Repr

/-- Modelled from the spec: the effect of the severity-escalation override on
a newly logged failure ("force-all-to-error" / "force-as-warning", spec section 3
Error Log and section 7); the XMLErrorLog implementation is not under src/. -/
def applyOverride : SeverityOverride → Severity → Severity
  | SeverityOverride.disabled, s => s
  | SeverityOverride.dontLog, s => s
  | SeverityOverride.asWarning, _ => Severity.warning
  | SeverityOverride.asError, _ => Severity.error

/-- The document error log: the ordered entries plus the current
severity-override toggle. -/
structure ErrorLog where
  entries : List LogEntry
  severityOverride : SeverityOverride
deriving DecidableEq, Repr

/-- Appending one failure to the log, with the severity override applied at
logging time (modelled from the spec, section 3 Error Log: append-only during a
pass; `dontLog` suppresses the record). -/
def ErrorLog.add (log : ErrorLog) (e : LogEntry) : ErrorLog :=
  match log.severityOverride with
  | SeverityOverride.dontLog => log
  | ov =>
      { log with entries :=
          log.entries ++ [{ e with severity := applyOverride ov e.severity }] }

/-- Appending a list of failures to the log in order. -/
def ErrorLog.addAll (log : ErrorLog) (es : List LogEntry) : ErrorLog :=
  es.foldl ErrorLog.add log

/-- Embedding of `SBMLDocument::getNumErrors(severity)`: the number of logged failures of
the given severity. -/
def getNumErrors (log : ErrorLog) (sev : Severity) : Nat :=
  (log.entries.filter fun e => e.severity == sev).length

/-- The observable output of one inner validation unit (the internal
internal validator `checkConsistency`, the `checkConsistency` of one
document plugin, or one attached `SBMLValidator`): the failure count it reports and the raw
failure records it produces. -/
structure ValidatorOutput where
  count : Nat
  failures : List LogEntry
deriving DecidableEq, Repr

/-- The inner validation units run by a consistency-check pass of
`SBMLDocument`: `mInternalValidator->checkConsistency()`, then each document
`checkConsistency()` of each plugin, then each attached ad hoc validator. -/
structure ConsistencyRuns where
  internalRun : ValidatorOutput
  pluginRuns : List ValidatorOutput
  adhocRuns : List ValidatorOutput
deriving DecidableEq, Repr

/-- Accumulates the output of one validator: its count is added and its failures
are appended to the log. -/
def addValidatorRun (p : Nat × ErrorLog) (v : ValidatorOutput) : Nat × ErrorLog :=
  (p.1 + v.count, p.2.addAll v.failures)

/-- The common body of `SBMLDocument::checkConsistency` and
`SBMLDocument::checkConsistencyWithStrictUnits` (SBMLDocument.cpp lines
707-724 and 751-768): the internal validator, the document plugins, and the
attached validators, whose failures are added only when their count is
positive. -/
def runConsistencyChecks (runs : ConsistencyRuns) (log : ErrorLog) : Nat × ErrorLog :=
  let p1 := (runs.internalRun.count, log.addAll runs.internalRun.failures)
  let p2 := runs.pluginRuns.foldl addValidatorRun p1
  runs.adhocRuns.foldl
    (fun p v => if v.count > 0 then addValidatorRun p v else p) p2

/-- Embedding of `SBMLDocument::checkConsistency` (SBMLDocument.cpp lines 698-730): saves
the severity override, disables it, runs the validators, restores the
override, and returns the failure count together with the updated log. -/
def checkConsistency (runs : ConsistencyRuns) (log : ErrorLog) : Nat × ErrorLog :=
  let overrideStatus := log.severityOverride
  let p := runConsistencyChecks runs
    { log with severityOverride := SeverityOverride.disabled }
  (p.1, { p.2 with severityOverride := overrideStatus })

/-- Embedding of `SBMLDocument::checkConsistencyWithStrictUnits` (SBMLDocument.cpp lines
739-801).  The call `setConsistencyChecks(LIBSBML_CAT_UNITS_CONSISTENCY,
false)` turns the ordinary units category off; `runs` stands for the
validator outputs under that setting.  `strictUnitRun` is the
`StrictUnitConsistencyValidator` output; it is consulted only when the log
holds no fatal and no error severity failure, and its failures are then
logged under the LIBSBML_OVERRIDE_ERROR override. -/
def checkConsistencyWithStrictUnits (runs : ConsistencyRuns)
    (strictUnitRun : ValidatorOutput) (log : ErrorLog) : Nat × ErrorLog :=
  let overrideStatus := log.severityOverride
  let p := runConsistencyChecks runs
    { log with severityOverride := SeverityOverride.disabled }
  let seriousErrors :=
    getNumErrors p.2 Severity.fatal > 0 || getNumErrors p.2 Severity.error > 0
  if seriousErrors then
    (p.1, { p.2 with severityOverride := overrideStatus })
  else
    let log5 := { p.2 with severityOverride := SeverityOverride.asError }
    let nerrors := strictUnitRun.count
    let log6 := if nerrors > 0 then log5.addAll strictUnitRun.failures else log5
    (p.1 + nerrors, { log6 with severityOverride := overrideStatus })

/-- The per-revision severity table: models
`SBMLError(errorId, level, version).getSeverity()`, wrapped by the source as
`getLevelVersionSeverity` (SBMLDocument.cpp lines 880-884).  The table itself
is defined by the SBMLError machinery, which is not under src/, so it is a
parameter here (the spec, section 9, leaves it to be supplied per revision). -/
def getLevelVersionSeverity (tbl : Nat → Nat → Nat → Severity)
    (errorId level version : Nat) : Severity :=
  tbl errorId level version

/-- The "strict units required" diagnostic codes logged by the level/version
compatibility checks (StrictUnitsRequiredInL1, ...InL2v1, ...InL2v2,
...InL2v3); their numeric enum values are not under src/, so they are
modelled as a distinct enumeration. -/
inductive CompatErrCode where
  | strictUnitsRequiredInL1
  | strictUnitsRequiredInL2v1
  | strictUnitsRequiredInL2v2
  | strictUnitsRequiredInL2v3
deriving DecidableEq, Repr

/-- A record appended by `getErrorLog()->logError(code, getLevel(),
getVersion())` during a compatibility check. -/
structure CompatLogEntry where
  errorId : CompatErrCode
  level : Nat
  version : Nat
deriving DecidableEq, Repr

/-- Embedding of `SBMLDocument::checkL1Compatibility` (SBMLDocument.cpp lines 893-932).
Here `nerrors` is the count from the internal `checkL1Compatibility()` and
`unitFailures` lists the error ids of the `UnitConsistencyValidator`
failures (`validate` returns their number).  When not in conversion and unit
failures exist, their severities are looked up at Level 1 Version 2; if any
is an error, a single StrictUnitsRequiredInL1 entry is logged and the unit
failures count as one, otherwise they count as zero. -/
def checkL1Compatibility (tbl : Nat → Nat → Nat → Severity)
    (inConversion : Bool) (nerrors : Nat) (unitFailures : List Nat)
    (docLevel docVersion : Nat) (log : List CompatLogEntry) :
    Nat × List CompatLogEntry :=
  if inConversion = false then
    let unit_errors := unitFailures.length
    if unit_errors > 0 then
      let logUnitError := unitFailures.any fun e =>
        getLevelVersionSeverity tbl e 1 2 == Severity.error
      if logUnitError then
        (nerrors + 1,
         log ++ [{ errorId := CompatErrCode.strictUnitsRequiredInL1,
                   level := docLevel, version := docVersion }])
      else
        (nerrors + 0, log)
    else
      (nerrors + unit_errors, log)
  else
    (nerrors + 0, log)

/-- Embedding of `SBMLDocument::checkL2v1Compatibility` (SBMLDocument.cpp lines 942-984):
as `checkL1Compatibility`, but the severities are looked up at Level 2
Version 1 and the logged code is StrictUnitsRequiredInL2v1. -/
def checkL2v1Compatibility (tbl : Nat → Nat → Nat → Severity)
    (inConversion : Bool) (nerrors : Nat) (unitFailures : List Nat)
    (docLevel docVersion : Nat) (log : List CompatLogEntry) :
    Nat × List CompatLogEntry :=
  if inConversion = false then
    let unit_errors := unitFailures.length
    if unit_errors > 0 then
      let logUnitError := unitFailures.any fun e =>
        getLevelVersionSeverity tbl e 2 1 == Severity.error
      if logUnitError then
        (nerrors + 1,
         log ++ [{ errorId := CompatErrCode.strictUnitsRequiredInL2v1,
                   level := docLevel, version := docVersion }])
      else
        (nerrors + 0, log)
    else
      (nerrors + unit_errors, log)
  else
    (nerrors + 0, log)

/-- Embedding of `SBMLDocument::checkL2v2Compatibility` (SBMLDocument.cpp lines 994-1033):
the severities are looked up at Level 1 Version 2 (the source passes `1, 2`
to `getLevelVersionSeverity`, not `2, 2`) and the logged code is
StrictUnitsRequiredInL2v2. -/
def checkL2v2Compatibility (tbl : Nat → Nat → Nat → Severity)
    (inConversion : Bool) (nerrors : Nat) (unitFailures : List Nat)
    (docLevel docVersion : Nat) (log : List CompatLogEntry) :
    Nat × List CompatLogEntry :=
  if inConversion = false then
    let unit_errors := unitFailures.length
    if unit_errors > 0 then
      let logUnitError := unitFailures.any fun e =>
        getLevelVersionSeverity tbl e 1 2 == Severity.error
      if logUnitError then
        (nerrors + 1,
         log ++ [{ errorId := CompatErrCode.strictUnitsRequiredInL2v2,
                   level := docLevel, version := docVersion }])
      else
        (nerrors + 0, log)
    else
      (nerrors + unit_errors, log)
  else
    (nerrors + 0, log)

/-- Embedding of `SBMLDocument::checkL2v3Compatibility` (SBMLDocument.cpp lines 1043-1082):
the severities are looked up at Level 1 Version 2 (the source passes `1, 2`
to `getLevelVersionSeverity`, not `2, 3`) and the logged code is
StrictUnitsRequiredInL2v3. -/
def checkL2v3Compatibility (tbl : Nat → Nat → Nat → Severity)
    (inConversion : Bool) (nerrors : Nat) (unitFailures : List Nat)
    (docLevel docVersion : Nat) (log : List CompatLogEntry) :
    Nat × List CompatLogEntry :=
  if inConversion = false then
    let unit_errors := unitFailures.length
    if unit_errors > 0 then
      let logUnitError := unitFailures.any fun e =>
        getLevelVersionSeverity tbl e 1 2 == Severity.error
      if logUnitError then
        (nerrors + 1,
         log ++ [{ errorId := CompatErrCode.strictUnitsRequiredInL2v3,
                   level := docLevel, version := docVersion }])
      else
        (nerrors + 0, log)
    else
      (nerrors + unit_errors, log)
  else
    (nerrors + 0, log)

/-- A node of the owned model tree: its plain id, its metaId, and its owned
children in document order (the Node data model of the spec, section 3). -/
inductive SBaseNode where
  | mk (id : String) (metaId : String) (children : List SBaseNode)

/-- The plain id of a node (`getId()`; the empty string when unset). -/
def SBaseNode.id : SBaseNode → String
  | SBaseNode.mk i _ _ => i

/-- The metaId of a node (`getMetaId()`; the empty string when unset). -/
def SBaseNode.metaId : SBaseNode → String
  | SBaseNode.mk _ m _ => m

/-- The owned children of a node in document order. -/
def SBaseNode.children : SBaseNode → List SBaseNode
  | SBaseNode.mk _ _ cs => cs

mutual

/-- Modelled from the spec: `SBase::getElementBySId` is not under src/; per
section 4.1 it is a depth-first search below the node returning the first
element whose id matches. -/
def SBaseNode.getElementBySId (n : SBaseNode) (id : String) : Option SBaseNode :=
  match n with
  | SBaseNode.mk _ _ cs => sidSearchList cs id

/-- Depth-first search of a child list for a plain id: each child is tested
before its own subtree is descended into. -/
def sidSearchList (cs : List SBaseNode) (id : String) : Option SBaseNode :=
  match cs with
  | [] => none
  | c :: rest =>
      if c.id = id then some c
      else
        match SBaseNode.getElementBySId c id with
        | some r => some r
        | none => sidSearchList rest id

end

mutual

/-- Modelled from the spec: `SBase::getElementByMetaId` is not under src/;
per section 4.1 it is a depth-first search below the node returning the
first element whose metaId matches. -/
def SBaseNode.getElementByMetaId (n : SBaseNode) (metaid : String) :
    Option SBaseNode :=
  match n with
  | SBaseNode.mk _ _ cs => metaSearchList cs metaid

/-- Depth-first search of a child list for a metaId. -/
def metaSearchList (cs : List SBaseNode) (metaid : String) : Option SBaseNode :=
  match cs with
  | [] => none
  | c :: rest =>
      if c.metaId = metaid then some c
      else
        match SBaseNode.getElementByMetaId c metaid with
        | some r => some r
        | none => metaSearchList rest metaid

end

/-- The document root: its schema revision, its own metaId, its optional
owned model tree, and its error log. -/
structure Document where
  level : Nat
  version : Nat
  metaId : String
  model : Option SBaseNode
  errorLog : ErrorLog

/-- A result of `SBMLDocument::getElementBySId` / `getElementByMetaId`:
either the document object itself or a node of the model tree (or of a
plugin subtree). -/
inductive FoundElem where
  | document
  | node (n : SBaseNode)

/-- Embedding of `SBMLDocument::getElementBySId` (SBMLDocument.cpp lines 405-415).
`pluginSearch` stands for `getElementFromPluginsBySId`, which searches the
attached plugin subtrees and can only yield tree nodes. -/
def Document.getElementBySId (doc : Document)
    (pluginSearch : String → Option SBaseNode) (id : String) :
    Option FoundElem :=
  if id = "" then none
  else
    match doc.model with
    | some m =>
        if m.id = id then some (FoundElem.node m)
        else
          match m.getElementBySId id with
          | some obj => some (FoundElem.node obj)
          | none => (pluginSearch id).map FoundElem.node
    | none => (pluginSearch id).map FoundElem.node

/-- Embedding of `SBMLDocument::getElementByMetaId` (SBMLDocument.cpp lines 418-429).
`pluginSearch` stands for `getElementFromPluginsByMetaId`. -/
def Document.getElementByMetaId (doc : Document)
    (pluginSearch : String → Option SBaseNode) (metaid : String) :
    Option FoundElem :=
  if metaid = "" then none
  else if doc.metaId = metaid then some FoundElem.document
  else
    match doc.model with
    | some m =>
        if m.metaId = metaid then some (FoundElem.node m)
        else
          match m.getElementByMetaId metaid with
          | some obj => some (FoundElem.node obj)
          | none => (pluginSearch metaid).map FoundElem.node
    | none => (pluginSearch metaid).map FoundElem.node

/-- The declarative target configuration handed to the conversion pipeline
(`ConversionProperties`): a set of named option values. -/
structure ConversionProperties where
  options : List (String × String)
deriving DecidableEq, Repr

/-- A registered converter, bound to a document and properties when invoked:
it returns its status code and the (possibly rewritten) document. -/
structure SBMLConverter where
  run : Document → ConversionProperties → Int × Document

/-- Status `LIBSBML_OPERATION_SUCCESS` of the operation return values enum. -/
def LIBSBML_OPERATION_SUCCESS : Int := 0

/-- Modelled from the spec: the distinct "conversion not available" status of
the operation return values enum (section 4.4, "no converter available");
the numeric values of that enum are not under src/, any fixed code distinct from
success serves. -/
def LIBSBML_CONV_CONVERSION_NOT_AVAILABLE : Int := -91

/-- Embedding of `SBMLDocument::convert` (SBMLDocument.cpp lines 1223-1236).
`getConverterFor` stands for
`SBMLConverterRegistry::getInstance().getConverterFor(props)`; when no
converter matches, the distinct status is returned and the document is not
touched, otherwise the matched converter is bound to the document and
properties and invoked. -/
def Document.convert (getConverterFor : ConversionProperties → Option SBMLConverter)
    (doc : Document) (props : ConversionProperties) : Int × Document :=
  match getConverterFor props with
  | none => (LIBSBML_CONV_CONVERSION_NOT_AVAILABLE, doc)
  | some conv => conv.run doc props

/-- One entry of an `XMLAttributes` collection: attribute name, value,
namespace URI and namespace prefix. -/
structure XMLAttr where
  name : String
  val : String
  uri : String
  pfx : String
deriving DecidableEq, Repr

/-- Removes the first entry with the given (URI, prefix) key from a list,
returning it and the remainder; this is the semantics of the indexed scan
with `break` that the source runs over an `XMLAttributes` collection. -/
def extractFirst (uri pfx : String) : List XMLAttr → Option (XMLAttr × List XMLAttr)
  | [] => none
  | a :: rest =>
      if a.uri = uri ∧ a.pfx = pfx then some (a, rest)
      else
        match extractFirst uri pfx rest with
        | some (b, rest2) => some (b, a :: rest2)
        | none => none

/-- Modelled from the spec: `XMLAttributes::add` is not under src/; the side
table holds one payload per (namespace, prefix) key that is merged back on
re-enable (section 9), so adding appends the entry to the collection. -/
def xmlAdd (l : List XMLAttr) (a : XMLAttr) : List XMLAttr := l ++ [a]

/-- The first recorded required-attribute entry for a (URI, prefix) key —
the keyed view of an `XMLAttributes` collection. -/
def lookupKey (uri pfx : String) (l : List XMLAttr) : Option XMLAttr :=
  l.find? fun a => a.uri == uri && a.pfx == pfx

/-- The unknown-package bookkeeping of a document:
`mRequiredAttrOfUnknownPkg` holds the required attributes of unknown
packages still enabled, `mRequiredAttrOfUnknownDisabledPkg` those of unknown
packages that were disabled. -/
structure UnknownPkgTables where
  requiredAttrOfUnknownPkg : List XMLAttr
  requiredAttrOfUnknownDisabledPkg : List XMLAttr
deriving DecidableEq, Repr

/-- The unknown-package part of `SBMLDocument::enablePackageInternal`
(SBMLDocument.cpp lines 2141-2192): on disable, the first recorded entry for
the (URI, prefix) pair moves from the live table to the disabled side table;
on enable, it moves back. -/
def enablePackageInternal (st : UnknownPkgTables) (pkgURI pkgPfx : String)
    (flag : Bool) : UnknownPkgTables :=
  if flag = false then
    match extractFirst pkgURI pkgPfx st.requiredAttrOfUnknownPkg with
    | some (a, rest) =>
        { requiredAttrOfUnknownPkg := rest,
          requiredAttrOfUnknownDisabledPkg :=
            xmlAdd st.requiredAttrOfUnknownDisabledPkg
              { name := a.name, val := a.val, uri := pkgURI, pfx := pkgPfx } }
    | none => st
  else
    match extractFirst pkgURI pkgPfx st.requiredAttrOfUnknownDisabledPkg with
    | some (a, rest) =>
        { requiredAttrOfUnknownPkg :=
            xmlAdd st.requiredAttrOfUnknownPkg
              { name := a.name, val := a.val, uri := pkgURI, pfx := pkgPfx },
          requiredAttrOfUnknownDisabledPkg := rest }
    | none => st

/-- The face an object shows to the duplicate-identifier constraint
(`UniqueSpatialIds`): whether its id is set, the id, the element name used
in messages, and the source line (`getLine()`, 0 when unknown). -/
structure VSBase where
  isSetId : Bool
  id : String
  elementName : String
  line : Nat
deriving DecidableEq, Repr

/-- The scratch state of `UniqueSpatialIds`: the id map `mIdMap` (a
`std::map` from id string to the first object seen with that id, kept in
insertion order here) and the failure messages logged so far through
`logFailure`. -/
structure ConstraintState where
  idMap : List (String × VSBase)
  failures : List String
deriving DecidableEq, Repr

/-- Embedding of `mIdMap.find(id)`: the object recorded for an id, if any. -/
def mapFind (m : List (String × VSBase)) (k : String) : Option VSBase :=
  (m.find? fun p => p.1 == k).map Prod.snd

/-- Embedding of `UniqueSpatialIds::getMessage` (part_002 lines 136-177): the conflict
message naming the element name of the new object, the element name of the
previously recorded object, the id, and the line of the previous object
when it is nonzero. -/
def getMessage (m : List (String × VSBase)) (id : String) (object : VSBase) :
    String :=
  match mapFind m id with
  | none =>
      "Internal (but non-fatal) Validator error in " ++
      "UniqueSpatialIds::getMessage().  The SBML object with duplicate id was " ++
      "not found when it came time to construct a descriptive error message."
  | some previous =>
      "  The <" ++ object.elementName ++ "> id \x27" ++ id ++
      "\x27 conflicts with the previously defined <" ++ previous.elementName ++
      "> id \x27" ++ id ++ "\x27" ++
      (if previous.line ≠ 0 then " at line " ++ toString previous.line else "") ++
      "."

/-- Embedding of `UniqueSpatialIds::doCheckId` (part_002 lines 102-114): an object with a
set id is inserted into `mIdMap` if its id is new; otherwise the insert
fails and the conflict is logged via `logIdConflict`/`getMessage`. -/
def doCheckId (st : ConstraintState) (object : VSBase) : ConstraintState :=
  if object.isSetId then
    let id := object.id
    match mapFind st.idMap id with
    | some _ =>
        { st with failures := st.failures ++ [getMessage st.idMap id object] }
    | none => { st with idMap := st.idMap ++ [(id, object)] }
  else st

/-- Embedding of `UniqueSpatialIds::reset` (part_002 lines 91-95): clears `mIdMap`. -/
def resetConstraint (st : ConstraintState) : ConstraintState :=
  { st with idMap := [] }

/-- A coordinate component and its two boundaries, checked in the source
order: the component itself, then `getBoundaryMax()`, then
`getBoundaryMin()`. -/
structure CoordinateComponent where
  self : VSBase
  boundaryMax : VSBase
  boundaryMin : VSBase
deriving DecidableEq, Repr

/-- The geometry of a spatial model plugin, with the object lists walked by
`UniqueSpatialIds::doCheck`. -/
structure Geometry where
  self : VSBase
  adjacentDomains : List VSBase
  coordinateComponents : List CoordinateComponent
  domainTypes : List VSBase
  domains : List VSBase
  geometryDefinitions : List VSBase
  sampledFields : List VSBase
deriving DecidableEq, Repr

/-- One compartment as seen by the constraint: the compartment mapping of
its spatial plugin, when set. -/
structure SCompartment where
  compartmentMapping : Option VSBase
deriving DecidableEq, Repr

/-- The model as walked by `UniqueSpatialIds::doCheck`: the spatial model
plugin geometry (when `isSetGeometry()`), and the compartments. -/
structure SpatialModel where
  geometry : Option Geometry
  compartments : List SCompartment
deriving DecidableEq, Repr

/-- The objects checked by `UniqueSpatialIds::doCheck` (part_002 lines
182-268), flattened in the traversal order of the source: the geometry, its
adjacent domains, each coordinate component with its max and min boundary,
the domain types, domains, geometry definitions and sampled fields, then
the compartment mapping of each compartment when set. -/
def spatialCheckOrder (m : SpatialModel) : List VSBase :=
  (match m.geometry with
   | some g =>
       [g.self] ++ g.adjacentDomains ++
       (g.coordinateComponents.flatMap fun c =>
         [c.self, c.boundaryMax, c.boundaryMin]) ++
       g.domainTypes ++ g.domains ++ g.geometryDefinitions ++ g.sampledFields
   | none => []) ++
  (m.compartments.filterMap fun c => c.compartmentMapping)

/-- Embedding of `UniqueSpatialIds::doCheck` (part_002 lines 182-268): checks every
id of every spatial object in traversal order and ends by calling `reset()`, which
clears the scratch id map. -/
def doCheck (st : ConstraintState) (m : SpatialModel) : ConstraintState :=
  resetConstraint ((spatialCheckOrder m).foldl doCheckId st)

/-- One rendered attribute of a markup element. -/
structure XMLAttrPair where
  attrName : String
  attrVal : String
deriving DecidableEq, Repr

/-- A rendered markup element: its name, its attributes in rendering order,
and its child elements in rendering order. -/
inductive XMLNode where
  | element (name : String) (attrs : List XMLAttrPair) (children : List XMLNode)

/-- A unit term of a unit definition: its kind, exponent and scale. -/
structure SUnit where
  kind : String
  exponent : Int
  scale : Int
deriving DecidableEq, Repr

/-- A unit definition: its name and its ordered unit terms. -/
structure SUnitDefinition where
  name : String
  units : List SUnit
deriving DecidableEq, Repr

/-- Modelled from the spec: the serializer (`SBMLFormatter`, exercised by
part_001 but not under src/) renders a unit with its kind, emitting the
exponent only when it differs from its default 1 and the scale only when it
differs from its default 0 (section 4.5, default suppression). -/
def serializeUnit (u : SUnit) : XMLNode :=
  XMLNode.element "unit"
    ([{ attrName := "kind", attrVal := u.kind }] ++
     (if u.exponent ≠ 1 then
        [{ attrName := "exponent", attrVal := toString u.exponent }] else []) ++
     (if u.scale ≠ 0 then
        [{ attrName := "scale", attrVal := toString u.scale }] else []))
    []

/-- Modelled from the spec: a unit definition renders as a `unitDefinition`
element named by its `name` attribute; its unit terms are written in order
inside a single `listOfUnits` wrapper, which is omitted entirely when there
are no terms (section 4.5, deterministic wrapper elements). -/
def serializeUnitDefinition (ud : SUnitDefinition) : XMLNode :=
  XMLNode.element "unitDefinition" [{ attrName := "name", attrVal := ud.name }]
    (if ud.units.isEmpty then []
     else [XMLNode.element "listOfUnits" [] (ud.units.map serializeUnit)])

/-- A species reference of a reaction: the referenced species, its
stoichiometry and its denominator. -/
structure SSpeciesReference where
  species : String
  stoichiometry : Int
  denominator : Int
deriving DecidableEq, Repr

/-- A kinetic law: its formula and its optional time/substance units. -/
structure SKineticLaw where
  formula : String
  timeUnits : Option String
  substanceUnits : Option String
deriving DecidableEq, Repr

/-- A reaction: its name, its reversible flag (default true), its fast flag
(default false), its reactants, its products, and its optional kinetic
law. -/
structure SReaction where
  name : String
  reversible : Bool
  fast : Bool
  reactants : List SSpeciesReference
  products : List SSpeciesReference
  kineticLaw : Option SKineticLaw
deriving DecidableEq, Repr

/-- Modelled from the spec: a species reference renders with its species,
emitting stoichiometry and denominator only when they differ from their
default 1 (section 4.5, default suppression). -/
def serializeSpeciesReference (sr : SSpeciesReference) : XMLNode :=
  XMLNode.element "speciesReference"
    ([{ attrName := "species", attrVal := sr.species }] ++
     (if sr.stoichiometry ≠ 1 then
        [{ attrName := "stoichiometry", attrVal := toString sr.stoichiometry }]
      else []) ++
     (if sr.denominator ≠ 1 then
        [{ attrName := "denominator", attrVal := toString sr.denominator }]
      else []))
    []

/-- Modelled from the spec: a kinetic law renders as one element carrying
its formula, with timeUnits and substanceUnits attributes only when they
were set (section 4.5, attributes emitted only if explicitly set). -/
def serializeKineticLaw (kl : SKineticLaw) : XMLNode :=
  XMLNode.element "kineticLaw"
    ([{ attrName := "formula", attrVal := kl.formula }] ++
     (match kl.timeUnits with
      | some t => [{ attrName := "timeUnits", attrVal := t }]
      | none => []) ++
     (match kl.substanceUnits with
      | some su => [{ attrName := "substanceUnits", attrVal := su }]
      | none => []))
    []

/-- Modelled from the spec: a reaction renders with default-valued
reversible/fast attributes suppressed; its reactants and products are
wrapped in `listOfReactants` / `listOfProducts` elements that are omitted
entirely when empty, followed by the kinetic law element when one is set
(section 4.5). -/
def serializeReaction (r : SReaction) : XMLNode :=
  XMLNode.element "reaction"
    ([{ attrName := "name", attrVal := r.name }] ++
     (if r.reversible ≠ true then
        [{ attrName := "reversible", attrVal := "false" }] else []) ++
     (if r.fast ≠ false then
        [{ attrName := "fast", attrVal := "true" }] else []))
    ((if r.reactants.isEmpty then []
      else [XMLNode.element "listOfReactants" []
              (r.reactants.map serializeSpeciesReference)]) ++
     (if r.products.isEmpty then []
      else [XMLNode.element "listOfProducts" []
              (r.products.map serializeSpeciesReference)]) ++
     (match r.kineticLaw with
      | some kl => [serializeKineticLaw kl]
      | none => []))

/-! ### Helper lemmas -/

/-- The failure records as they appear after being logged under the
force-as-error override. -/
def forceToError (es : List LogEntry) : List LogEntry :=
  es.map fun e => { e with severity := Severity.error }

theorem ErrorLog.addAll_cons (log : ErrorLog) (e : LogEntry) (es : List LogEntry) :
    log.addAll (e :: es) = (log.add e).addAll es := rfl

theorem ErrorLog.add_severityOverride (log : ErrorLog) (e : LogEntry) :
    (log.add e).severityOverride = log.severityOverride := by
  unfold ErrorLog.add
  cases h : log.severityOverride <;> simp [h]

theorem ErrorLog.addAll_asError (es : List LogEntry) (log : ErrorLog)
    (h : log.severityOverride = SeverityOverride.asError) :
    log.addAll es = { log with entries := log.entries ++ forceToError es } := by
  induction es generalizing log with
  | nil => simp [ErrorLog.addAll, forceToError]
  | cons e es ih =>
      rw [ErrorLog.addAll_cons]
      have hadd : log.add e =
          { log with entries :=
              log.entries ++ [{ e with severity := Severity.error }] } := by
        unfold ErrorLog.add
        rw [h]
        rfl
      rw [hadd, ih _ (by simp [h])]
      simp [forceToError]

/-! ### Claim theorems -/

/-- Claim C2: when the converter registry holds no converter matching the
requested conversion properties, `SBMLDocument::convert` returns the
distinct "conversion not available" status (different from the success
status) and the document — its level, version, model tree and error log —
is returned entirely unchanged. -/
theorem c2_no_converter (getConverterFor : ConversionProperties → Option SBMLConverter)
    (doc : Document) (props : ConversionProperties)
    (h : getConverterFor props = none) :
    Document.convert getConverterFor doc props =
      (LIBSBML_CONV_CONVERSION_NOT_AVAILABLE, doc) ∧
    LIBSBML_CONV_CONVERSION_NOT_AVAILABLE ≠ LIBSBML_OPERATION_SUCCESS := by
  constructor
  · unfold Document.convert
    rw [h]
  · decide

theorem c2_no_converter_witness :
    ((fun _ : ConversionProperties => (none : Option SBMLConverter))
        { options := [("setLevelAndVersion", "true")] } = none) ∧
    Document.convert (fun _ => none)
      { level := 2, version := 4, metaId := "", model := none,
        errorLog := { entries := [], severityOverride := SeverityOverride.disabled } }
      { options := [("setLevelAndVersion", "true")] } =
      (LIBSBML_CONV_CONVERSION_NOT_AVAILABLE,
       { level := 2, version := 4, metaId := "", model := none,
         errorLog := { entries := [], severityOverride := SeverityOverride.disabled } }) :=
  ⟨rfl, (c2_no_converter (fun _ => none) _ _ rfl).1⟩

/-- Claim C3: both consistency-check passes (`checkConsistency` and
`checkConsistencyWithStrictUnits`) disable the severity override of the error log
on entry and restore exactly the prior override value on every return path,
including the early return of the strict-units pass when serious errors are
found. -/
theorem c3_override_restored (runs : ConsistencyRuns)
    (strictUnitRun : ValidatorOutput) (log : ErrorLog) :
    (checkConsistency runs log).2.severityOverride = log.severityOverride ∧
    (checkConsistencyWithStrictUnits runs strictUnitRun log).2.severityOverride =
      log.severityOverride := by
  constructor
  · rfl
  · unfold checkConsistencyWithStrictUnits
    dsimp only
    split <;> rfl

/-- Claim C8: the unit definition "mmls" with unit terms (mole, exponent 1, scale
-3), (liter, exponent -1, scale 0) and (second, exponent -1, scale 0)
serializes to a single wrapping element named "mmls" containing one
`listOfUnits` wrapper with exactly those three unit sub-elements in order;
the default-valued attributes (exponent 1, scale 0) are omitted and every
non-default exponent/scale is rendered, with no other sub-elements. -/
theorem c8_unitDefinition_serialization :
    serializeUnitDefinition
      { name := "mmls",
        units := [{ kind := "mole", exponent := 1, scale := -3 },
                  { kind := "liter", exponent := -1, scale := 0 },
                  { kind := "second", exponent := -1, scale := 0 }] } =
    XMLNode.element "unitDefinition" [{ attrName := "name", attrVal := "mmls" }]
      [XMLNode.element "listOfUnits" []
        [XMLNode.element "unit"
          [{ attrName := "kind", attrVal := "mole" },
           { attrName := "scale", attrVal := "-3" }] [],
         XMLNode.element "unit"
          [{ attrName := "kind", attrVal := "liter" },
           { attrName := "exponent", attrVal := "-1" }] [],
         XMLNode.element "unit"
          [{ attrName := "kind", attrVal := "second" },
           { attrName := "exponent", attrVal := "-1" }] []]] := by
  rfl

/-- Claim C9: the reaction "v1" with one reactant "x0" and one product "s1" (each
with stoichiometry 1 and denominator 1) and a kinetic law with formula
"(vm * s1)/(km + s1)" and no unit attributes serializes to one reactant list
holding exactly one species reference, one product list holding exactly one
species reference, and one kinetic law sub-element carrying exactly that
formula and no timeUnits/substanceUnits attributes; no empty lists are
emitted. -/
theorem c9_reaction_serialization :
    serializeReaction
      { name := "v1", reversible := true, fast := false,
        reactants := [{ species := "x0", stoichiometry := 1, denominator := 1 }],
        products := [{ species := "s1", stoichiometry := 1, denominator := 1 }],
        kineticLaw := some { formula := "(vm * s1)/(km + s1)",
                             timeUnits := none, substanceUnits := none } } =
    XMLNode.element "reaction" [{ attrName := "name", attrVal := "v1" }]
      [XMLNode.element "listOfReactants" []
        [XMLNode.element "speciesReference"
          [{ attrName := "species", attrVal := "x0" }] []],
       XMLNode.element "listOfProducts" []
        [XMLNode.element "speciesReference"
          [{ attrName := "species", attrVal := "s1" }] []],
       XMLNode.element "kineticLaw"
        [{ attrName := "formula", attrVal := "(vm * s1)/(km + s1)" }] []] := by
  rfl

/-- Claim C4: `checkConsistencyWithStrictUnits` first runs the non-strict-unit
consistency checks; when the error log then holds at least one fatal- or
error-severity failure, the strict unit validator is not consulted and the
count found so far is returned; only with zero fatal and zero error failures
is the strict validator run, its failures logged forced to severity error,
and its count added to the result. -/
theorem c4_strict_units_gating (runs : ConsistencyRuns)
    (strictUnitRun : ValidatorOutput) (log : ErrorLog)
    (hc : strictUnitRun.count = strictUnitRun.failures.length) :
    ∀ p, p = runConsistencyChecks runs
        { log with severityOverride := SeverityOverride.disabled } →
    ((0 < getNumErrors p.2 Severity.fatal ∨ 0 < getNumErrors p.2 Severity.error) →
      checkConsistencyWithStrictUnits runs strictUnitRun log =
        (p.1, { p.2 with severityOverride := log.severityOverride })) ∧
    (¬(0 < getNumErrors p.2 Severity.fatal ∨ 0 < getNumErrors p.2 Severity.error) →
      checkConsistencyWithStrictUnits runs strictUnitRun log =
        (p.1 + strictUnitRun.count,
         { entries := p.2.entries ++ forceToError strictUnitRun.failures,
           severityOverride := log.severityOverride })) := by
  intro p hp
  constructor
  · intro hser
    unfold checkConsistencyWithStrictUnits
    dsimp only
    rw [← hp]
    rw [if_pos]
    rcases hser with hs | hs
    · simp [hs]
    · simp [hs]
  · intro hser
    push_neg at hser
    unfold checkConsistencyWithStrictUnits
    dsimp only
    rw [← hp]
    rw [if_neg]
    · by_cases h0 : strictUnitRun.count > 0
      · rw [if_pos h0]
        rw [ErrorLog.addAll_asError _ _ rfl]
      · rw [if_neg h0]
        have hf : strictUnitRun.failures = [] := by
          have : strictUnitRun.failures.length = 0 := by omega
          exact List.length_eq_zero.mp this
        simp [hf, forceToError]
    · simp [Nat.pos_iff_ne_zero] at hser ⊢
      omega

/-- Claim C1 (counterexample): with a severity table under which unit error 10501
is an error at Level 1 Version 2 but only a warning at Level 2 Version 2,
`checkL2v2Compatibility` outside of conversion, given one unit-validator
failure none of whose codes would be severity error at the target revision
L2v2, still logs the strict-units-required error and contributes one to the
count — contradicting the claim that such failures contribute zero and log
nothing. -/
theorem c1_counterexample :
    checkL2v2Compatibility
        (fun _ l _ => if l = 1 then Severity.error else Severity.warning)
        false 0 [10501] 3 1 [] =
      (1, [{ errorId := CompatErrCode.strictUnitsRequiredInL2v2,
             level := 3, version := 1 }]) ∧
    getLevelVersionSeverity
        (fun _ l _ => if l = 1 then Severity.error else Severity.warning)
        10501 2 2 ≠ Severity.error := by
  constructor
  · rfl
  · decide

/-- Claim C1 (amended): for every compatibility check toward L1, L2v1, L2v2 or
L2v3 with `inConversion` false and a nonempty unit-validator failure list,
the unit failures contribute zero to the returned count and no unit error is
logged when none of their codes has severity error at the revision the
source consults — which is Level 1 Version 2 for the L1, L2v2 and L2v3
checks and Level 2 Version 1 for the L2v1 check — and otherwise exactly one
strict-units-required error for that target is logged and the unit failures
contribute exactly one. -/
theorem c1_units_suppression (tbl : Nat → Nat → Nat → Severity) (nerrors : Nat)
    (unitFailures : List Nat) (docLevel docVersion : Nat)
    (log : List CompatLogEntry) (h : unitFailures ≠ []) :
    (checkL1Compatibility tbl false nerrors unitFailures docLevel docVersion log =
      if unitFailures.any (fun e => getLevelVersionSeverity tbl e 1 2 == Severity.error)
      then (nerrors + 1,
            log ++ [{ errorId := CompatErrCode.strictUnitsRequiredInL1,
                      level := docLevel, version := docVersion }])
      else (nerrors, log)) ∧
    (checkL2v1Compatibility tbl false nerrors unitFailures docLevel docVersion log =
      if unitFailures.any (fun e => getLevelVersionSeverity tbl e 2 1 == Severity.error)
      then (nerrors + 1,
            log ++ [{ errorId := CompatErrCode.strictUnitsRequiredInL2v1,
                      level := docLevel, version := docVersion }])
      else (nerrors, log)) ∧
    (checkL2v2Compatibility tbl false nerrors unitFailures docLevel docVersion log =
      if unitFailures.any (fun e => getLevelVersionSeverity tbl e 1 2 == Severity.error)
      then (nerrors + 1,
            log ++ [{ errorId := CompatErrCode.strictUnitsRequiredInL2v2,
                      level := docLevel, version := docVersion }])
      else (nerrors, log)) ∧
    (checkL2v3Compatibility tbl false nerrors unitFailures docLevel docVersion log =
      if unitFailures.any (fun e => getLevelVersionSeverity tbl e 1 2 == Severity.error)
      then (nerrors + 1,
            log ++ [{ errorId := CompatErrCode.strictUnitsRequiredInL2v3,
                      level := docLevel, version := docVersion }])
      else (nerrors, log)) := by
  have hl : 0 < unitFailures.length := List.length_pos.mpr h
  refine ⟨?_, ?_, ?_, ?_⟩
  · unfold checkL1Compatibility
    dsimp only
    rw [if_pos rfl, if_pos hl]
    split <;> rfl
  · unfold checkL2v1Compatibility
    dsimp only
    rw [if_pos rfl, if_pos hl]
    split <;> rfl
  · unfold checkL2v2Compatibility
    dsimp only
    rw [if_pos rfl, if_pos hl]
    split <;> rfl
  · unfold checkL2v3Compatibility
    dsimp only
    rw [if_pos rfl, if_pos hl]
    split <;> rfl

theorem c1_units_suppression_witness :
    (([10501] : List Nat) ≠ []) ∧
    checkL1Compatibility
        (fun _ l _ => if l = 1 then Severity.error else Severity.warning)
        false 2 [10501] 2 4 [] =
      (if ([10501] : List Nat).any (fun e =>
            getLevelVersionSeverity
              (fun _ l _ => if l = 1 then Severity.error else Severity.warning)
              e 1 2 == Severity.error)
       then (2 + 1, [] ++ [{ errorId := CompatErrCode.strictUnitsRequiredInL1,
                             level := 2, version := 4 }])
       else (2, [])) :=
  ⟨by decide,
   (c1_units_suppression
      (fun _ l _ => if l = 1 then Severity.error else Severity.warning)
      2 [10501] 2 4 [] (by decide)).1⟩

/-- Claim C10: both element lookups of the document return none when called with
the empty string, whatever the tree contains (in particular when elements
carry unset or empty ids or metaIds); `getElementByMetaId` returns the
document itself whenever the own metaId of the document matches a nonempty query,
and `getElementBySId` can never return the document, since its search starts
at the model. -/
theorem c10_element_lookup (doc : Document) (pl : String → Option SBaseNode) :
    (doc.getElementBySId pl "" = none ∧ doc.getElementByMetaId pl "" = none) ∧
    (∀ mid : String, mid ≠ "" → doc.metaId = mid →
      doc.getElementByMetaId pl mid = some FoundElem.document) ∧
    (∀ id : String, doc.getElementBySId pl id ≠ some FoundElem.document) := by
  refine ⟨⟨?_, ?_⟩, ?_, ?_⟩
  · simp [Document.getElementBySId]
  · simp [Document.getElementByMetaId]
  · intro mid h1 h2
    simp [Document.getElementByMetaId, h1, h2]
  · intro id
    unfold Document.getElementBySId
    by_cases h : id = ""
    · simp [h]
    · rw [if_neg h]
      cases hm : doc.model with
      | none =>
          cases hpl : pl id <;> simp [hpl]
      | some m =>
          dsimp only
          by_cases hid : m.id = id
          · simp [hid]
          · rw [if_neg hid]
            cases hs : m.getElementBySId id with
            | some obj => simp
            | none =>
                cases hpl : pl id <;> simp [hpl]

theorem c10_element_lookup_witness :
    (("m1" : String) ≠ "") ∧
    Document.getElementByMetaId
        { level := 3, version := 2, metaId := "m1",
          model := some (SBaseNode.mk "" "" []),
          errorLog := { entries := [], severityOverride := SeverityOverride.disabled } }
        (fun _ => none) "m1" = some FoundElem.document :=
  ⟨by decide,
   (c10_element_lookup
      { level := 3, version := 2, metaId := "m1",
        model := some (SBaseNode.mk "" "" []),
        errorLog := { entries := [], severityOverride := SeverityOverride.disabled } }
      (fun _ => none)).2.1 "m1" (by decide) rfl⟩

theorem extractFirst_key {u p : String} :
    ∀ {l : List XMLAttr} {a : XMLAttr} {rest : List XMLAttr},
      extractFirst u p l = some (a, rest) → a.uri = u ∧ a.pfx = p := by
  intro l
  induction l with
  | nil =>
      intro a rest h
      exact absurd h (by simp [extractFirst])
  | cons b l ih =>
      intro a rest h
      rw [extractFirst] at h
      split_ifs at h with hb
      · simp only [Option.some.injEq, Prod.mk.injEq] at h
        obtain ⟨rfl, -⟩ := h
        exact hb
      · cases hx : extractFirst u p l with
        | none => rw [hx] at h; exact absurd h (by simp)
        | some pr =>
            obtain ⟨b2, rest2⟩ := pr
            rw [hx] at h
            simp only [Option.some.injEq, Prod.mk.injEq] at h
            obtain ⟨rfl, -⟩ := h
            exact ih hx

theorem extractFirst_split {u p : String} :
    ∀ {l : List XMLAttr} {a : XMLAttr} {rest : List XMLAttr},
      extractFirst u p l = some (a, rest) →
      ∃ l1 l2, l = l1 ++ a :: l2 ∧ rest = l1 ++ l2 ∧
        ∀ b ∈ l1, ¬(b.uri = u ∧ b.pfx = p) := by
  intro l
  induction l with
  | nil =>
      intro a rest h
      exact absurd h (by simp [extractFirst])
  | cons b l ih =>
      intro a rest h
      rw [extractFirst] at h
      split_ifs at h with hb
      · simp only [Option.some.injEq, Prod.mk.injEq] at h
        obtain ⟨rfl, rfl⟩ := h
        exact ⟨[], l, by simp⟩
      · cases hx : extractFirst u p l with
        | none => rw [hx] at h; exact absurd h (by simp)
        | some pr =>
            obtain ⟨b2, rest2⟩ := pr
            rw [hx] at h
            simp only [Option.some.injEq, Prod.mk.injEq] at h
            obtain ⟨rfl, rfl⟩ := h
            obtain ⟨l1, l2, hl, hr, hnm⟩ := ih hx
            refine ⟨b :: l1, l2, by simp [hl], by simp [hr], ?_⟩
            intro c hc
            rcases List.mem_cons.mp hc with rfl | hcl
            · exact hb
            · exact hnm c hcl


theorem extractFirst_none {u p : String} :
    ∀ {l : List XMLAttr}, extractFirst u p l = none →
      ∀ b ∈ l, ¬(b.uri = u ∧ b.pfx = p) := by
  intro l
  induction l with
  | nil =>
      intro _ b hb
      exact absurd hb (List.not_mem_nil b)
  | cons c l ih =>
      intro h b hb
      rw [extractFirst] at h
      by_cases hc : c.uri = u ∧ c.pfx = p
      · rw [if_pos hc] at h
        exact absurd h (by simp)
      · rw [if_neg hc] at h
        have hnone : extractFirst u p l = none := by
          cases hx : extractFirst u p l with
          | none => rfl
          | some pr =>
              obtain ⟨b2, rest2⟩ := pr
              rw [hx] at h
              exact absurd h (by simp)
        rcases List.mem_cons.mp hb with rfl | hbl
        · exact hc
        · exact ih hnone b hbl

theorem extractFirst_append_found {u p : String} {a : XMLAttr}
    (ha : a.uri = u ∧ a.pfx = p) :
    ∀ {l : List XMLAttr}, extractFirst u p l = none →
      extractFirst u p (l ++ [a]) = some (a, l) := by
  intro l
  induction l with
  | nil =>
      intro _
      simp [extractFirst, ha]
  | cons b l ih =>
      intro h
      rw [extractFirst] at h
      by_cases hb : b.uri = u ∧ b.pfx = p
      · rw [if_pos hb] at h
        exact absurd h (by simp)
      · rw [if_neg hb] at h
        have hnone : extractFirst u p l = none := by
          cases hx : extractFirst u p l with
          | none => rfl
          | some pr =>
              obtain ⟨b2, rest2⟩ := pr
              rw [hx] at h
              exact absurd h (by simp)
        rw [List.cons_append, extractFirst, if_neg hb, ih hnone]

theorem attrKeyFalse {a : XMLAttr} {u p : String}
    (h : ¬(a.uri = u ∧ a.pfx = p)) :
    (a.uri == u && a.pfx == p) = false := by
  by_cases h1 : a.uri = u
  · by_cases h2 : a.pfx = p
    · exact absurd ⟨h1, h2⟩ h
    · simp [h1, h2]
  · simp [h1]

theorem find?_move_back (q : XMLAttr → Bool) (l1 l2 : List XMLAttr) (a : XMLAttr)
    (hcase : q a = false ∨ ((∀ b ∈ l1, q b = false) ∧ (∀ b ∈ l2, q b = false))) :
    ((l1 ++ l2) ++ [a]).find? q = (l1 ++ a :: l2).find? q := by
  rcases hcase with hqa | ⟨h1, h2⟩
  · have hcons : (a :: l2).find? q = l2.find? q :=
      List.find?_cons_of_neg _ (by simp [hqa])
    have hsing : List.find? q [a] = none := by simp [hqa]
    rw [List.find?_append, List.find?_append, List.find?_append, hcons, hsing]
    cases l1.find? q <;> cases l2.find? q <;> rfl
  · have hn1 : l1.find? q = none := List.find?_eq_none.mpr (by simpa using h1)
    have hn2 : l2.find? q = none := List.find?_eq_none.mpr (by simpa using h2)
    rw [List.find?_append, List.find?_append, List.find?_append, hn1, hn2]
    cases hqa : q a
    · have hcons : (a :: l2).find? q = l2.find? q :=
        List.find?_cons_of_neg _ (by simp [hqa])
      have hsing : List.find? q [a] = none := by simp [hqa]
      rw [hcons, hsing, hn2]
      rfl
    · have hcons : (a :: l2).find? q = some a :=
        List.find?_cons_of_pos _ (by simp [hqa])
      have hsing : List.find? q [a] = some a :=
        List.find?_cons_of_pos _ (by simp [hqa])
      rw [hcons, hsing]
      rfl

/-- Claim C5: a document holding exactly one recorded required-attribute entry for
an unknown package keyed by a (namespace URI, prefix) pair, and none for
that key in the disabled side table, gets its unknown-package
required-attribute state restored by a disable/re-enable round trip of that
package: the disabled side table returns exactly to its prior value, the
live table holds exactly the prior entries (as a multiset), and the keyed
(URI, prefix) → entry view of the live table is pointwise unchanged, so no
unknown-package data is lost. -/
theorem c5_unknown_pkg_roundtrip (st : UnknownPkgTables) (uri pfx : String)
    (a : XMLAttr) (rest : List XMLAttr)
    (h1 : extractFirst uri pfx st.requiredAttrOfUnknownPkg = some (a, rest))
    (h2 : extractFirst uri pfx rest = none)
    (h3 : extractFirst uri pfx st.requiredAttrOfUnknownDisabledPkg = none) :
    ∀ st2, st2 = enablePackageInternal
        (enablePackageInternal st uri pfx false) uri pfx true →
    st2.requiredAttrOfUnknownDisabledPkg = st.requiredAttrOfUnknownDisabledPkg ∧
    st2.requiredAttrOfUnknownPkg.Perm st.requiredAttrOfUnknownPkg ∧
    ∀ u p, lookupKey u p st2.requiredAttrOfUnknownPkg =
      lookupKey u p st.requiredAttrOfUnknownPkg := by
  intro st2 hst2
  obtain ⟨hau, hap⟩ := extractFirst_key h1
  have ha' : ({ name := a.name, val := a.val, uri := uri, pfx := pfx } : XMLAttr) = a := by
    cases a
    simp_all
  have hdis : enablePackageInternal st uri pfx false =
      { requiredAttrOfUnknownPkg := rest,
        requiredAttrOfUnknownDisabledPkg :=
          xmlAdd st.requiredAttrOfUnknownDisabledPkg a } := by
    unfold enablePackageInternal
    rw [if_pos rfl, h1]
    dsimp only
    rw [ha']
  have hfind : extractFirst uri pfx
      (xmlAdd st.requiredAttrOfUnknownDisabledPkg a) =
      some (a, st.requiredAttrOfUnknownDisabledPkg) :=
    extractFirst_append_found ⟨hau, hap⟩ h3
  have hen : st2 =
      { requiredAttrOfUnknownPkg := xmlAdd rest a,
        requiredAttrOfUnknownDisabledPkg := st.requiredAttrOfUnknownDisabledPkg } := by
    rw [hst2, hdis]
    unfold enablePackageInternal
    rw [if_neg (by simp)]
    dsimp only
    rw [hfind]
    dsimp only
    rw [ha']
  obtain ⟨l1, l2, hl, hr, hnm⟩ := extractFirst_split h1
  refine ⟨by rw [hen], ?_, ?_⟩
  · rw [hen, hl, hr]
    show ((l1 ++ l2) ++ [a]).Perm (l1 ++ a :: l2)
    rw [List.append_assoc]
    exact List.Perm.append_left l1 (List.perm_append_singleton a l2)
  · intro u p
    rw [hen, hl, hr]
    show ((l1 ++ l2) ++ [a]).find? _ = (l1 ++ a :: l2).find? _
    apply find?_move_back
    by_cases hq : u = uri ∧ p = pfx
    · right
      obtain ⟨rfl, rfl⟩ := hq
      constructor
      · intro b hb
        exact attrKeyFalse (hnm b hb)
      · intro b hb
        exact attrKeyFalse (extractFirst_none (hr ▸ h2) b (by simp [hb]))
    · left
      apply attrKeyFalse
      intro hk
      exact hq ⟨(hk.1.symm.trans hau), (hk.2.symm.trans hap)⟩


/-- The id-map evolution of one `doCheckId` step. -/
def stepMap (m : List (String × VSBase)) (o : VSBase) : List (String × VSBase) :=
  if o.isSetId then
    match mapFind m o.id with
    | some _ => m
    | none => m ++ [(o.id, o)]
  else m

/-- The failure messages logged by one `doCheckId` step. -/
def stepMsgs (m : List (String × VSBase)) (o : VSBase) : List String :=
  if o.isSetId then
    match mapFind m o.id with
    | some _ => [getMessage m o.id o]
    | none => []
  else []

theorem doCheckId_split (st : ConstraintState) (o : VSBase) :
    doCheckId st o =
      { idMap := stepMap st.idMap o,
        failures := st.failures ++ stepMsgs st.idMap o } := by
  cases h : o.isSetId with
  | false => simp [doCheckId, stepMap, stepMsgs, h]
  | true =>
      cases hf : mapFind st.idMap o.id <;>
        simp [doCheckId, stepMap, stepMsgs, h, hf]

/-- The id map reached and the failure messages produced by checking a list
of objects starting from a given id map. -/
def runIdChecks (m : List (String × VSBase)) :
    List VSBase → List (String × VSBase) × List String
  | [] => (m, [])
  | o :: os =>
      let r := runIdChecks (stepMap m o) os
      (r.1, stepMsgs m o ++ r.2)

theorem foldl_doCheckId (os : List VSBase) :
    ∀ (m : List (String × VSBase)) (fs : List String),
      os.foldl doCheckId { idMap := m, failures := fs } =
        { idMap := (runIdChecks m os).1,
          failures := fs ++ (runIdChecks m os).2 } := by
  induction os with
  | nil =>
      intro m fs
      simp [runIdChecks]
  | cons o os ih =>
      intro m fs
      rw [List.foldl_cons, doCheckId_split, ih]
      simp [runIdChecks, List.append_assoc]

theorem doCheck_closed (st : ConstraintState) (m : SpatialModel) :
    doCheck st m =
      { idMap := [],
        failures := st.failures ++
          (runIdChecks st.idMap (spatialCheckOrder m)).2 } := by
  unfold doCheck resetConstraint
  have h := foldl_doCheckId (spatialCheckOrder m) st.idMap st.failures
  rw [show ({ idMap := st.idMap, failures := st.failures } : ConstraintState) = st
        from rfl] at h
  rw [h]

/-- Claim C6: with a fresh scratch map, running the duplicate-identifier
`doCheck` of the constraint twice in succession over the unchanged model logs the
same list of new failures in both runs, because the constraint clears its
scratch identifier map at the end of every run, so no entry of one run
influences the next. -/
theorem c6_doCheck_repeatable (st : ConstraintState) (m : SpatialModel)
    (h : st.idMap = []) :
    (doCheck st m).idMap = [] ∧
    ∃ L, (doCheck st m).failures = st.failures ++ L ∧
      (doCheck (doCheck st m) m).failures = (doCheck st m).failures ++ L := by
  refine ⟨by rw [doCheck_closed], ?_⟩
  refine ⟨(runIdChecks [] (spatialCheckOrder m)).2, ?_, ?_⟩
  · rw [doCheck_closed, h]
  · have hmap : (doCheck st m).idMap = [] := by rw [doCheck_closed]
    rw [doCheck_closed (doCheck st m) m, hmap]

/-- Claim C7: a `doCheckId` step logs a conflict exactly when the object presents
an id already present in the scratch map: an object without a set id leaves
the state unchanged; the first object with a given id is recorded in the map
without any failure; and an object whose id is already mapped to a
previously seen object logs exactly one message naming the element kind of
the object, the element kind of the previously seen object, the conflicting
id (twice), and the source line of the previously seen object exactly when
that line is nonzero. -/
theorem c7_doCheckId_conflict (st : ConstraintState) (o : VSBase) :
    (o.isSetId = false → doCheckId st o = st) ∧
    (o.isSetId = true → mapFind st.idMap o.id = none →
      doCheckId st o = { st with idMap := st.idMap ++ [(o.id, o)] }) ∧
    (∀ prev, o.isSetId = true → mapFind st.idMap o.id = some prev →
      doCheckId st o = { st with failures := st.failures ++
        ["  The <" ++ o.elementName ++ "> id \x27" ++ o.id ++
         "\x27 conflicts with the previously defined <" ++ prev.elementName ++
         "> id \x27" ++ o.id ++ "\x27" ++
         (if prev.line ≠ 0 then " at line " ++ toString prev.line else "") ++
         "."] }) := by
  refine ⟨?_, ?_, ?_⟩
  · intro h
    simp [doCheckId, h]
  · intro h hf
    simp [doCheckId, h, hf]
  · intro prev h hf
    simp [doCheckId, h, hf, getMessage]


theorem c4_strict_units_gating_witness :
    ((⟨1, [{ errorId := 10501, severity := Severity.warning }]⟩ : ValidatorOutput).count =
      (⟨1, [{ errorId := 10501, severity := Severity.warning }]⟩ : ValidatorOutput).failures.length) ∧
    checkConsistencyWithStrictUnits
        { internalRun := ⟨0, []⟩, pluginRuns := [], adhocRuns := [] }
        ⟨1, [{ errorId := 10501, severity := Severity.warning }]⟩
        { entries := [], severityOverride := SeverityOverride.disabled } =
      (1, { entries := [{ errorId := 10501, severity := Severity.error }],
            severityOverride := SeverityOverride.disabled }) :=
  ⟨rfl,
   ((c4_strict_units_gating
      { internalRun := ⟨0, []⟩, pluginRuns := [], adhocRuns := [] }
      ⟨1, [{ errorId := 10501, severity := Severity.warning }]⟩
      { entries := [], severityOverride := SeverityOverride.disabled }
      rfl) _ rfl).2 (by decide)⟩

theorem c5_unknown_pkg_roundtrip_witness :
    extractFirst "uriA" "pa"
        [{ name := "required", val := "true", uri := "uriA", pfx := "pa" },
         { name := "required", val := "false", uri := "uriB", pfx := "pb" }] =
      some ({ name := "required", val := "true", uri := "uriA", pfx := "pa" },
            [{ name := "required", val := "false", uri := "uriB", pfx := "pb" }]) ∧
    (enablePackageInternal
        (enablePackageInternal
          { requiredAttrOfUnknownPkg :=
              [{ name := "required", val := "true", uri := "uriA", pfx := "pa" },
               { name := "required", val := "false", uri := "uriB", pfx := "pb" }],
            requiredAttrOfUnknownDisabledPkg := [] } "uriA" "pa" false)
        "uriA" "pa" true).requiredAttrOfUnknownDisabledPkg = [] :=
  ⟨by decide,
   (c5_unknown_pkg_roundtrip
      { requiredAttrOfUnknownPkg :=
          [{ name := "required", val := "true", uri := "uriA", pfx := "pa" },
           { name := "required", val := "false", uri := "uriB", pfx := "pb" }],
        requiredAttrOfUnknownDisabledPkg := [] }
      "uriA" "pa"
      { name := "required", val := "true", uri := "uriA", pfx := "pa" }
      [{ name := "required", val := "false", uri := "uriB", pfx := "pb" }]
      (by decide) (by decide) (by decide) _ rfl).1⟩

theorem c6_doCheck_repeatable_witness :
    (({ idMap := [], failures := [] } : ConstraintState).idMap = []) ∧
    (doCheck { idMap := [], failures := [] }
      { geometry := some
          { self := { isSetId := true, id := "g", elementName := "geometry", line := 3 },
            adjacentDomains := [{ isSetId := true, id := "g",
                                  elementName := "adjacentDomains", line := 7 }],
            coordinateComponents := [], domainTypes := [], domains := [],
            geometryDefinitions := [], sampledFields := [] },
        compartments := [] }).idMap = [] :=
  ⟨rfl,
   (c6_doCheck_repeatable { idMap := [], failures := [] }
      { geometry := some
          { self := { isSetId := true, id := "g", elementName := "geometry", line := 3 },
            adjacentDomains := [{ isSetId := true, id := "g",
                                  elementName := "adjacentDomains", line := 7 }],
            coordinateComponents := [], domainTypes := [], domains := [],
            geometryDefinitions := [], sampledFields := [] },
        compartments := [] } rfl).1⟩

theorem c7_doCheckId_conflict_witness :
    (({ isSetId := true, id := "cell", elementName := "compartment", line := 12 }
        : VSBase).isSetId = true) ∧
    mapFind [("cell", { isSetId := true, id := "cell",
                        elementName := "parameter", line := 10 })] "cell" =
      some { isSetId := true, id := "cell", elementName := "parameter", line := 10 } ∧
    doCheckId
      { idMap := [("cell", { isSetId := true, id := "cell",
                             elementName := "parameter", line := 10 })],
        failures := [] }
      { isSetId := true, id := "cell", elementName := "compartment", line := 12 } =
      { idMap := [("cell", { isSetId := true, id := "cell",
                             elementName := "parameter", line := 10 })],
        failures := ["  The <compartment> id \x27cell\x27 conflicts with the " ++
          "previously defined <parameter> id \x27cell\x27" ++
          (if (10 : Nat) ≠ 0 then " at line " ++ toString (10 : Nat) else "") ++
          "."] } :=
  ⟨rfl, by decide,
   (c7_doCheckId_conflict
      { idMap := [("cell", { isSetId := true, id := "cell",
                             elementName := "parameter", line := 10 })],
        failures := [] }
      { isSetId := true, id := "cell", elementName := "compartment",
        line := 12 }).2.2
      { isSetId := true, id := "cell", elementName := "parameter", line := 10 }
      rfl (by decide)⟩

end LibSBML
